import Mathlib

/-!
Shallow embedding of `src/kursovaya.py` (a drone flight-state controller).

Python numbers are embedded as `Int`; the mutable singleton state becomes an
explicit record threaded through every operation; dict-shaped responses become
the closed inductive `Response`.  Methods keep the source names.
-/

/-- The drone data model (`DroneModelSingleton`): altitude, speed,
position `(x, y)` and battery level, initialised to `0, 0, (0,0), 100`. -/
structure DroneModelSingleton where
  altitude : Int
  speed : Int
  position : Int × Int
  battery_level : Int
  deriving DecidableEq, Repr

/-- `DroneModelSingleton.__new__`: the initial state of the single instance. -/
def DroneModelSingleton.init : DroneModelSingleton :=
  { altitude := 0, speed := 0, position := (0, 0), battery_level := 100 }

/-- `update_position`: unconditional assignment of `position`. -/
def DroneModelSingleton.update_position (m : DroneModelSingleton)
    (new_position : Int × Int) : DroneModelSingleton :=
  { m with position := new_position }

/-- `update_altitude`: unconditional assignment of `altitude`. -/
def DroneModelSingleton.update_altitude (m : DroneModelSingleton)
    (new_altitude : Int) : DroneModelSingleton :=
  { m with altitude := new_altitude }

/-- `update_speed`: unconditional assignment of `speed`. -/
def DroneModelSingleton.update_speed (m : DroneModelSingleton)
    (new_speed : Int) : DroneModelSingleton :=
  { m with speed := new_speed }

/-- `update_battery_level`: decrement `battery_level` by `consumption`. -/
def DroneModelSingleton.update_battery_level (m : DroneModelSingleton)
    (consumption : Int) : DroneModelSingleton :=
  { m with battery_level := m.battery_level - consumption }

/-- A sensor reading: the dict `{distance: numeric}` passed to `update`. -/
structure Reading where
  distance : Int
  deriving DecidableEq, Repr

/-- The response shapes produced by `DroneView` and `DroneController`:
the status dict of `display_status`, the `{alert: message}` dict of `alert`,
and the `{battery_level: level}` dict returned by `monitor_battery`. -/
inductive Response where
  | status (altitude speed : Int) (position : Int × Int) (battery_level : Int)
  | alert (message : String)
  | battery (battery_level : Int)
  deriving DecidableEq, Repr

/-- `DroneView.display_status`: render the four model attributes. -/
def DroneView.display_status (m : DroneModelSingleton) : Response :=
  Response.status m.altitude m.speed m.position m.battery_level

/-- `DroneView.alert`: render `{alert: message}`. -/
def DroneView.alert (message : String) : Response :=
  Response.alert message

/-- `ObstacleSensor.update`, as its effect on the shared model.  In the source
the sensor holds a back-reference to the controller and, in the first branch,
calls `controller.change_position((x + 10, y))`; in the second branch it calls
`controller.change_speed(0)`.  Each of those controller methods mutates exactly
the corresponding model attribute and returns a status that the sensor
discards, so the model-level effect below is exact. -/
def ObstacleSensor.update (data : Reading) (m : DroneModelSingleton) :
    DroneModelSingleton :=
  if data.distance < 10 then
    m.update_position (m.position.1 + 10, m.position.2)
  else if data.distance < 5 then
    m.update_speed 0
  else
    m

/-- The observer capability (`SensorObserver`): a sensor is known to the
controller by its `update` action on the shared model (the only part of the
controller state a sensor mutates, always through the controller's
`change_*` methods).  `sid` is an instrumentation id used to state the
notification-order property. -/
structure SensorObserver where
  sid : Nat
  update : Reading → DroneModelSingleton → DroneModelSingleton

/-- The concrete obstacle sensor registered at startup, as a registry entry. -/
def obstacle_sensor (sid : Nat) : SensorObserver :=
  { sid := sid, update := ObstacleSensor.update }

/-- `DroneController`: owns the model and the ordered sensor registry.
The view is stateless (two pure renderings) and is embedded as the free
functions `DroneView.display_status` / `DroneView.alert`. -/
structure DroneController where
  model : DroneModelSingleton
  sensors : List SensorObserver

/-- `attach_sensor`: append to the registry. -/
def DroneController.attach_sensor (c : DroneController)
    (sensor : SensorObserver) : DroneController :=
  { c with sensors := c.sensors ++ [sensor] }

/-- `notify_sensors`: `for sensor in self.sensors: sensor.update(data)` —
each sensor's update runs to completion on the model left by the previous
one (a left fold in registration order). -/
def DroneController.notify_sensors (c : DroneController) (data : Reading) :
    DroneController :=
  { c with model := c.sensors.foldl (fun m s => s.update data m) c.model }

/-- The sensor loop of `notify_sensors`, instrumented: runs the sensors in
list order, threading the model, and records the id of each sensor as it is
invoked. -/
def runSensors : List SensorObserver → Reading → DroneModelSingleton →
    DroneModelSingleton × List Nat
  | [], _, m => (m, [])
  | s :: rest, data, m =>
    let out := runSensors rest data (s.update data m)
    (out.1, s.sid :: out.2)

/-- `change_position`: mutate the model's position, then return the rendered
status of the mutated model. -/
def DroneController.change_position (c : DroneController)
    (new_position : Int × Int) : DroneController × Response :=
  let c2 : DroneController := { c with model := c.model.update_position new_position }
  (c2, DroneView.display_status c2.model)

/-- `change_altitude`: mutate the model's altitude, then return the rendered
status of the mutated model. -/
def DroneController.change_altitude (c : DroneController)
    (new_altitude : Int) : DroneController × Response :=
  let c2 : DroneController := { c with model := c.model.update_altitude new_altitude }
  (c2, DroneView.display_status c2.model)

/-- `change_speed`: mutate the model's speed, then return the rendered
status of the mutated model. -/
def DroneController.change_speed (c : DroneController)
    (new_speed : Int) : DroneController × Response :=
  let c2 : DroneController := { c with model := c.model.update_speed new_speed }
  (c2, DroneView.display_status c2.model)

/-- `monitor_battery`: alert below 20, otherwise `{battery_level: level}`;
the source performs no assignment, so the controller passes through. -/
def DroneController.monitor_battery (c : DroneController) :
    DroneController × Response :=
  if c.model.battery_level < 20 then
    (c, DroneView.alert "Low battery! Returning to base.")
  else
    (c, Response.battery c.model.battery_level)

/-- `return_to_base`: three sequential mutations (position `(0,0)`,
altitude `0`, speed `0`), then the alert response. -/
def DroneController.return_to_base (c : DroneController) :
    DroneController × Response :=
  let c1 : DroneController := { c with model := c.model.update_position (0, 0) }
  let c2 : DroneController := { c1 with model := c1.model.update_altitude 0 }
  let c3 : DroneController := { c2 with model := c2.model.update_speed 0 }
  (c3, DroneView.alert "Drone has returned to base.")

/-- The closed set of flight strategies of the source
(`TakeoffStrategy`, `LandingStrategy`, `PatrolStrategy`). -/
inductive FlightStrategy where
  | TakeoffStrategy
  | LandingStrategy
  | PatrolStrategy
  deriving DecidableEq, Repr

/-- `execute(drone)`, as the effect on `drone.model`.
`TakeoffStrategy` sets altitude to 10; `LandingStrategy` sets altitude to 0;
`PatrolStrategy`'s body is only a print and the comment
`# Implement patrol logic here` — it performs no model mutation. -/
def FlightStrategy.execute : FlightStrategy → DroneModelSingleton →
    DroneModelSingleton
  | .TakeoffStrategy, m => m.update_altitude 10
  | .LandingStrategy, m => m.update_altitude 0
  | .PatrolStrategy, m => m

/-- `StatefulDrone`: the model plus the currently selected strategy
(initially `None`). -/
structure StatefulDrone where
  model : DroneModelSingleton
  strategy : Option FlightStrategy
  deriving DecidableEq, Repr

/-- `set_strategy`: select a strategy. -/
def StatefulDrone.set_strategy (d : StatefulDrone) (s : FlightStrategy) :
    StatefulDrone :=
  { d with strategy := some s }

/-- `perform_action`: execute the selected strategy if one is selected
(`if self.strategy:` — `None` is falsy, a strategy object is truthy), then
call `display_status`, a pure rendering whose result is discarded. -/
def StatefulDrone.perform_action (d : StatefulDrone) : StatefulDrone :=
  match d.strategy with
  | some s => { d with model := s.execute d.model }
  | none => d

/-! ## Helper lemmas -/

theorem runSensors_eq (ss : List SensorObserver) (data : Reading)
    (m : DroneModelSingleton) :
    runSensors ss data m =
      (ss.foldl (fun m s => s.update data m) m, ss.map SensorObserver.sid) := by
  induction ss generalizing m with
  | nil => rfl
  | cons s rest ih => simp [runSensors, ih]

theorem foldl_attach_sensor (c : DroneController) (ss : List SensorObserver) :
    ss.foldl DroneController.attach_sensor c =
      { model := c.model, sensors := c.sensors ++ ss } := by
  induction ss generalizing c with
  | nil => simp
  | cons s rest ih => simp [DroneController.attach_sensor, ih]

/-! ## Claims -/

/-- Claim C1 (counterexample): `LandingStrategy.execute` does NOT set speed
to 0 — on the state `(altitude 5, speed 7, position (1,2), battery 90)` the
resulting speed is 7, so the claimed conjunction fails. -/
theorem C1_land_counterexample :
    ¬ ((FlightStrategy.LandingStrategy.execute ⟨5, 7, (1, 2), 90⟩).altitude = 0 ∧
       (FlightStrategy.LandingStrategy.execute ⟨5, 7, (1, 2), 90⟩).speed = 0 ∧
       (FlightStrategy.LandingStrategy.execute ⟨5, 7, (1, 2), 90⟩).position = (1, 2)) := by
  decide

/-- Claim C1 (amended): `LandingStrategy.execute` sets altitude to 0 and
leaves speed, position and battery level unchanged, for every prior state. -/
theorem C1_land_sets_altitude_only (m : DroneModelSingleton) :
    (FlightStrategy.LandingStrategy.execute m).altitude = 0 ∧
    (FlightStrategy.LandingStrategy.execute m).speed = m.speed ∧
    (FlightStrategy.LandingStrategy.execute m).position = m.position ∧
    (FlightStrategy.LandingStrategy.execute m).battery_level = m.battery_level := by
  simp [FlightStrategy.execute, DroneModelSingleton.update_altitude]

/-- Claim C2 (code evaluation at the failing input): with Patrol selected,
`perform_action` twice from the initial state leaves the model completely
unchanged — speed is not 5 and the position has not advanced — because
`PatrolStrategy.execute` is an unimplemented stub. -/
theorem C2_patrol_stub_no_motion :
    (StatefulDrone.perform_action (StatefulDrone.perform_action
        ⟨DroneModelSingleton.init, some FlightStrategy.PatrolStrategy⟩)).model =
      DroneModelSingleton.init ∧
    (StatefulDrone.perform_action (StatefulDrone.perform_action
        ⟨DroneModelSingleton.init, some FlightStrategy.PatrolStrategy⟩)).model.speed ≠ 5 ∧
    (StatefulDrone.perform_action (StatefulDrone.perform_action
        ⟨DroneModelSingleton.init, some FlightStrategy.PatrolStrategy⟩)).model.position ≠ (5, 5) := by
  decide

/-- Claim C3: for a reading with `distance < 10`, `notify_sensors` on a
controller with the obstacle sensor registered moves the position to
`(x + 10, y)` and leaves the speed (and altitude and battery) unchanged. -/
theorem C3_obstacle_dodge (m : DroneModelSingleton) (dist : Int)
    (h : dist < 10) :
    (DroneController.notify_sensors ⟨m, [obstacle_sensor 0]⟩ ⟨dist⟩).model.position =
      (m.position.1 + 10, m.position.2) ∧
    (DroneController.notify_sensors ⟨m, [obstacle_sensor 0]⟩ ⟨dist⟩).model.speed = m.speed ∧
    (DroneController.notify_sensors ⟨m, [obstacle_sensor 0]⟩ ⟨dist⟩).model.altitude = m.altitude ∧
    (DroneController.notify_sensors ⟨m, [obstacle_sensor 0]⟩ ⟨dist⟩).model.battery_level =
      m.battery_level := by
  simp [DroneController.notify_sensors, obstacle_sensor, ObstacleSensor.update, h,
    DroneModelSingleton.update_position]

/-- Claim C3 witness: from position `(0, 0)` a reading with distance 3 yields
position `(10, 0)` with the speed untouched. -/
theorem C3_obstacle_dodge_witness :
    (DroneController.notify_sensors ⟨⟨0, 0, (0, 0), 100⟩, [obstacle_sensor 0]⟩
        ⟨3⟩).model.position = (10, 0) ∧
    (DroneController.notify_sensors ⟨⟨0, 0, (0, 0), 100⟩, [obstacle_sensor 0]⟩
        ⟨3⟩).model.speed = 0 := by
  have h := C3_obstacle_dodge ⟨0, 0, (0, 0), 100⟩ 3 (by decide)
  exact ⟨by simpa using h.1, h.2.1⟩

/-- Claim C4: for a reading with `distance ≥ 10`, `notify_sensors` with only
the obstacle sensor registered leaves every model attribute unchanged. -/
theorem C4_obstacle_far_no_change (m : DroneModelSingleton) (dist : Int)
    (h : 10 ≤ dist) :
    (DroneController.notify_sensors ⟨m, [obstacle_sensor 0]⟩ ⟨dist⟩).model.altitude = m.altitude ∧
    (DroneController.notify_sensors ⟨m, [obstacle_sensor 0]⟩ ⟨dist⟩).model.speed = m.speed ∧
    (DroneController.notify_sensors ⟨m, [obstacle_sensor 0]⟩ ⟨dist⟩).model.position = m.position ∧
    (DroneController.notify_sensors ⟨m, [obstacle_sensor 0]⟩ ⟨dist⟩).model.battery_level =
      m.battery_level := by
  have h10 : ¬ dist < 10 := by omega
  have h5 : ¬ dist < 5 := by omega
  simp [DroneController.notify_sensors, obstacle_sensor, ObstacleSensor.update, h10, h5]

/-- Claim C4 witness: a reading with distance 50 causes no state change. -/
theorem C4_obstacle_far_witness :
    (DroneController.notify_sensors ⟨⟨2, 3, (4, 5), 90⟩, [obstacle_sensor 0]⟩
        ⟨50⟩).model.altitude = 2 ∧
    (DroneController.notify_sensors ⟨⟨2, 3, (4, 5), 90⟩, [obstacle_sensor 0]⟩
        ⟨50⟩).model.speed = 3 ∧
    (DroneController.notify_sensors ⟨⟨2, 3, (4, 5), 90⟩, [obstacle_sensor 0]⟩
        ⟨50⟩).model.position = (4, 5) ∧
    (DroneController.notify_sensors ⟨⟨2, 3, (4, 5), 90⟩, [obstacle_sensor 0]⟩
        ⟨50⟩).model.battery_level = 90 :=
  C4_obstacle_far_no_change ⟨2, 3, (4, 5), 90⟩ 50 (by decide)

/-- Claim C5: the stop branch is unreachable — for every distance,
`ObstacleSensor.update` leaves the model's speed unchanged, because the
`distance < 10` branch is checked first and subsumes `distance < 5`. -/
theorem C5_obstacle_never_changes_speed (dist : Int) (m : DroneModelSingleton) :
    (ObstacleSensor.update ⟨dist⟩ m).speed = m.speed := by
  by_cases h10 : dist < 10
  · simp [ObstacleSensor.update, h10, DroneModelSingleton.update_position]
  · have h5 : ¬ dist < 5 := by omega
    simp [ObstacleSensor.update, h10, h5]

/-- Claim C6: `monitor_battery` returns the low-battery alert iff the battery
level is below 20, otherwise the plain `{battery_level: level}` form, and it
mutates no state. -/
theorem C6_monitor_battery_spec (c : DroneController) :
    ((c.monitor_battery).2 = Response.alert "Low battery! Returning to base." ↔
      c.model.battery_level < 20) ∧
    (20 ≤ c.model.battery_level →
      (c.monitor_battery).2 = Response.battery c.model.battery_level) ∧
    (c.monitor_battery).1 = c := by
  by_cases h : c.model.battery_level < 20
  · simp [DroneController.monitor_battery, DroneView.alert, h]
  · constructor
    · simp [DroneController.monitor_battery, DroneView.alert, h]
    · exact ⟨fun _ => by simp [DroneController.monitor_battery, h],
        by simp [DroneController.monitor_battery, h]⟩

/-- Claim C6 witness: at the boundary, battery level 19 yields the alert and
battery level 20 yields the plain level form. -/
theorem C6_monitor_battery_witness :
    (DroneController.monitor_battery ⟨⟨0, 0, (0, 0), 19⟩, []⟩).2 =
      Response.alert "Low battery! Returning to base." ∧
    (DroneController.monitor_battery ⟨⟨0, 0, (0, 0), 20⟩, []⟩).2 =
      Response.battery 20 :=
  ⟨(C6_monitor_battery_spec ⟨⟨0, 0, (0, 0), 19⟩, []⟩).1.mpr (by decide),
   (C6_monitor_battery_spec ⟨⟨0, 0, (0, 0), 20⟩, []⟩).2.1 (by decide)⟩

/-- Claim C7: `return_to_base` leaves position `(0,0)`, altitude 0 and speed 0
with the battery level unchanged, and returns the
`{alert: "Drone has returned to base."}` response, for every prior state. -/
theorem C7_return_to_base_spec (c : DroneController) :
    (c.return_to_base).1.model =
      ⟨0, 0, (0, 0), c.model.battery_level⟩ ∧
    (c.return_to_base).1.sensors = c.sensors ∧
    (c.return_to_base).2 = Response.alert "Drone has returned to base." := by
  simp [DroneController.return_to_base, DroneView.alert,
    DroneModelSingleton.update_position, DroneModelSingleton.update_altitude,
    DroneModelSingleton.update_speed]

/-- Claim C8: each `change_*` operation mutates exactly its one model
attribute, leaves the other three untouched, and returns the rendered status
of the post-mutation model. -/
theorem C8_change_ops_frame (c : DroneController) (p : Int × Int) (a v : Int) :
    ((c.change_position p).1.model =
        ⟨c.model.altitude, c.model.speed, p, c.model.battery_level⟩ ∧
      (c.change_position p).2 =
        Response.status c.model.altitude c.model.speed p c.model.battery_level) ∧
    ((c.change_altitude a).1.model =
        ⟨a, c.model.speed, c.model.position, c.model.battery_level⟩ ∧
      (c.change_altitude a).2 =
        Response.status a c.model.speed c.model.position c.model.battery_level) ∧
    ((c.change_speed v).1.model =
        ⟨c.model.altitude, v, c.model.position, c.model.battery_level⟩ ∧
      (c.change_speed v).2 =
        Response.status c.model.altitude v c.model.position c.model.battery_level) := by
  simp [DroneController.change_position, DroneController.change_altitude,
    DroneController.change_speed, DroneView.display_status,
    DroneModelSingleton.update_position, DroneModelSingleton.update_altitude,
    DroneModelSingleton.update_speed]

/-- Claim C9: after any sequence of `attach_sensor` calls, `notify_sensors`
invokes each registered sensor's update exactly once, in attachment order
(the instrumented trace is exactly the ids in registration order), each call
completing on the model left by the previous one (the final model is the left
fold of the updates), and `notify_sensors` computes exactly that model. -/
theorem C9_notify_in_attachment_order (c : DroneController)
    (ss : List SensorObserver) (data : Reading) :
    (runSensors (ss.foldl DroneController.attach_sensor c).sensors data
        (ss.foldl DroneController.attach_sensor c).model).2 =
      (c.sensors ++ ss).map SensorObserver.sid ∧
    ((ss.foldl DroneController.attach_sensor c).notify_sensors data).model =
      (runSensors (ss.foldl DroneController.attach_sensor c).sensors data
        (ss.foldl DroneController.attach_sensor c).model).1 ∧
    ((ss.foldl DroneController.attach_sensor c).notify_sensors data).model =
      (c.sensors ++ ss).foldl (fun m s => s.update data m) c.model := by
  rw [foldl_attach_sensor]
  simp [runSensors_eq, DroneController.notify_sensors]

/-- Claim C10: `perform_action` with no strategy selected changes nothing —
the `if self.strategy:` guard skips execution and the status rendering is
pure and discarded. -/
theorem C10_perform_action_no_strategy (m : DroneModelSingleton) :
    StatefulDrone.perform_action ⟨m, none⟩ = ⟨m, none⟩ :=
  rfl
